import Mathlib

/-!
# Verification of the Resume-Tailor career-data store

A shallow embedding of the validation layer (`models.py`) and the storage
engine (`career_data_manager.py`) of the Resume-Tailor repository, together
with theorems settling the specification claims about them.

Modelling conventions:
* Python strings are Lean `String`s (both sequences of Unicode code points;
  `len` is `String.length`, `<` is lexicographic comparison by code point).
* `datetime` timestamps and file modification times are natural numbers
  driven by a logical clock in the engine state; real mtimes are positive,
  which the well-formedness predicate `wfState` records.
* The filesystem visible to the engine is the triple of primary / backup /
  temp files; a file is `Option FileEntry`, and its content is either a
  serialized record (`FileContent.record`) or bytes that fail JSON parsing
  (`FileContent.corrupt`).  Serialization of a record is injective, so
  equality of `FileContent` values models byte-identity of files.
* Exceptions are modelled with `Except`; I/O faults that the code catches
  (a failing temp-file write, read, or rename) are injected through the
  `SaveFault` parameter of `save`.
-/

deriving instance DecidableEq for Except

namespace ResumeTailor

/-! ## String helpers mirroring Python primitives -/

/-- The whitespace predicate shared by Python's `str.split()` and by `\s`
in its (Unicode-default) regexes: CPython's `Py_UNICODE_ISSPACE`.  Beyond
the ASCII controls and the space it covers NEL, NBSP, the Ogham space
mark, U+2000–U+200A, the line and paragraph separators, the narrow
no-break space, the medium mathematical space and the ideographic
space. -/
def pyIsSpace (c : Char) : Bool :=
  let n := c.toNat
  (0x9 ≤ n && n ≤ 0xD) || (0x1C ≤ n && n ≤ 0x1F) || n = 0x20 ||
  n = 0x85 || n = 0xA0 || n = 0x1680 || (0x2000 ≤ n && n ≤ 0x200A) ||
  n = 0x2028 || n = 0x2029 || n = 0x202F || n = 0x205F || n = 0x3000

/-- Counts the maximal non-whitespace runs of a character list; the flag
records whether the previous character was inside a run. -/
def countWordsAux (inWord : Bool) : List Char → Nat
  | [] => 0
  | c :: rest =>
    if pyIsSpace c then countWordsAux false rest
    else (if inWord then 0 else 1) + countWordsAux true rest

/-- `len(s.split())` in Python: number of maximal non-whitespace runs. -/
def wordCount (s : String) : Nat := countWordsAux false s.data

/-- `s.lower()` restricted to ASCII, which is all the denylist comparison
in the source ever needs. -/
def lowerStr (s : String) : String := ⟨s.data.map Char.toLower⟩

/-- `needle in haystack` on `List Char` (Python's substring test). -/
def containsSubList (needle : List Char) : List Char → Bool
  | [] => needle.isEmpty
  | c :: rest => needle.isPrefixOf (c :: rest) || containsSubList needle rest

/-- Python's `needle in haystack` for strings. -/
def strContains (haystack needle : String) : Bool :=
  containsSubList needle.data haystack.data

/-- `pathlib.Path.with_suffix`: drop the part of the final path component
from its last dot on (if any), then append the new suffix.  Scans the
reversed character list; a `/` before any `.` means the last component has
no suffix. -/
def stripLastSuffixRev : List Char → Option (List Char)
  | [] => none
  | c :: rest =>
    if c = '.' then some rest
    else if c = '/' then none
    else stripLastSuffixRev rest

/-- `Path(fp).with_suffix(suffix)` as a string operation. -/
def withSuffix (fp suffix : String) : String :=
  match stripLastSuffixRev fp.data.reverse with
  | some kept => ⟨kept.reverse⟩ ++ suffix
  | none => fp ++ suffix

/-! ## Record schema (`models.py`) -/

/-- `Achievement` (models.py).  `result` and `metrics` are `Optional` in the
source. -/
structure Achievement where
  description : String
  company : String
  timeframe : String
  result : Option String := none
  metrics : Option (List String) := some []
deriving DecidableEq

/-- `Skill` (models.py). -/
structure Skill where
  name : String
  category : String
  proficiency : Option String := some "intermediate"
  examples : List Achievement
  last_used : String
deriving DecidableEq

/-- `Job` (models.py). -/
structure Job where
  company : String
  title : String
  start_date : String
  end_date : Option String := none
  location : Option String := none
  company_context : Option String := none
  description : Option String := none
  responsibilities : Option (List String) := some []
  achievements : Option (List Achievement) := some []
  skills_used : Option (List String) := some []
deriving DecidableEq

/-- `PersonalValue` (models.py). -/
structure PersonalValue where
  content : String
  category : String
deriving DecidableEq

/-- `Education` (models.py); every field is a plain string or optional. -/
structure Education where
  degree : String
  school : String
  dates : String
  location : Option String := none
  details : Option (List String) := some []
deriving DecidableEq

/-- `Certification` (models.py). -/
structure Certification where
  title : String
  organization : String
  date_obtained : Option String := none
  expiration : Option String := none
  details : Option String := none
deriving DecidableEq

/-- `Project` (models.py). -/
structure Project where
  title : String
  description : String
  timeframe : String
  role : Option String := none
  technologies : Option (List String) := some []
  achievements : Option (List String) := some []
deriving DecidableEq

/-- `ContactInfo` (models.py). -/
structure ContactInfo where
  name : String
  email : String
  phone : String
  linkedin : Option String := none
  location : Option String := none
deriving DecidableEq

/-- `CareerData` (models.py); `last_updated` is a timestamp drawn from the
engine's logical clock. -/
structure CareerData where
  version : String := "1.0"
  last_updated : Nat := 0
  contact_info : ContactInfo
  jobs : List Job := []
  skills : List Skill := []
  education : List Education := []
  certifications : List Certification := []
  projects : List Project := []
  personal_values : List PersonalValue := []
  skipped_skills : List String := []
deriving DecidableEq

/-! ## Validation layer (field patterns and validators from `models.py`) -/

/-- The regex `^\d{4}-\d{2}$`. -/
def matchYYYYMM (s : String) : Bool :=
  match s.data with
  | [y1, y2, y3, y4, d, m1, m2] =>
    y1.isDigit && y2.isDigit && y3.isDigit && y4.isDigit &&
    d = '-' && m1.isDigit && m2.isDigit
  | _ => false

/-- The regex `^\d{2}/\d{4}$`. -/
def matchMMslashYYYY (s : String) : Bool :=
  match s.data with
  | [m1, m2, d, y1, y2, y3, y4] =>
    m1.isDigit && m2.isDigit && d = '/' &&
    y1.isDigit && y2.isDigit && y3.isDigit && y4.isDigit
  | _ => false

/-- The regex `^\d{4}-\d{2}$|^\d{4}-\d{2} to \d{4}-\d{2}$|^\d{4}-\d{2} to Present$`
used for `Achievement.timeframe` and `Project.timeframe`. -/
def matchTimeframe (s : String) : Bool :=
  match s.data with
  | [y1, y2, y3, y4, d, m1, m2] =>
    y1.isDigit && y2.isDigit && y3.isDigit && y4.isDigit &&
    d = '-' && m1.isDigit && m2.isDigit
  | y1 :: y2 :: y3 :: y4 :: d :: m1 :: m2 :: ' ' :: 't' :: 'o' :: ' ' :: rest =>
    y1.isDigit && y2.isDigit && y3.isDigit && y4.isDigit &&
    d = '-' && m1.isDigit && m2.isDigit &&
    (rest = "Present".data || matchYYYYMM ⟨rest⟩)
  | _ => false

/-- `Achievement`'s field constraints and `validate_description_quality`:
description 20–500 chars with at least 5 words, nonempty company, timeframe
pattern, result at most 200 chars. -/
def achievementValid (a : Achievement) : Bool :=
  20 ≤ a.description.length && a.description.length ≤ 500 &&
  1 ≤ a.company.length &&
  matchTimeframe a.timeframe &&
  (match a.result with | none => true | some r => r.length ≤ 200) &&
  5 ≤ wordCount a.description

/-- The denylist of `Skill.validate_skill_name`. -/
def bannedGeneric : List String :=
  ["team player", "hard worker", "quick learner",
   "detail oriented", "self motivated", "go-getter",
   "results driven", "passionate"]

/-- One character of the class `[A-Za-z0-9\s\.\-\+#&/]` from
`Skill.validate_skill_name` (note `\s`, not just a space). -/
def skillNameCharOk (c : Char) : Bool :=
  c.isAlpha || c.isDigit || pyIsSpace c ||
  c = '.' || c = '-' || c = '+' || c = '#' || c = '&' || c = '/'

/-- `re.match(r"^[A-Za-z0-9\s\.\-\+#&/]+$", v)` succeeds: the name is a
nonempty run of permitted characters. -/
def skillNameCharsOk (v : String) : Bool :=
  !v.data.isEmpty && v.data.all skillNameCharOk

/-- `Skill`'s validity: name length 2–100, not a denylisted generic term
(case-insensitively), only permitted characters, at least one valid
`Achievement` as evidence, `last_used` in `YYYY-MM` form. -/
def skillValid (s : Skill) : Bool :=
  2 ≤ s.name.length && s.name.length ≤ 100 &&
  !(bannedGeneric.contains (lowerStr s.name)) &&
  skillNameCharsOk s.name &&
  1 ≤ s.examples.length &&
  s.examples.all achievementValid &&
  matchYYYYMM s.last_used

/-- `str.replace('/', '-')` as used by `Job.validate_dates`. -/
def replaceSlash (s : String) : String :=
  ⟨s.data.map (fun c => if c = '/' then '-' else c)⟩

/-- Python string comparison `a < b`: lexicographic by code point, with a
proper prefix comparing less. -/
def pyStrLt : List Char → List Char → Bool
  | [], [] => false
  | [], _ :: _ => true
  | _ :: _, [] => false
  | x :: xs, y :: ys =>
    if x.toNat < y.toNat then true
    else if y.toNat < x.toNat then false
    else pyStrLt xs ys

/-- The date-ordering check of `Job.validate_dates`: if `end_date` is set
and is not `"Present"`, both dates have `'/'` replaced by `'-'` and the
results are compared as strings; the job is rejected when `end < start`
lexicographically. -/
def jobDatesOk (j : Job) : Bool :=
  match j.end_date with
  | none => true
  | some e =>
    if e = "Present" then true
    else !(pyStrLt (replaceSlash e).data (replaceSlash j.start_date).data)

/-- `Job`'s validity: the field patterns on `start_date` and `end_date`,
pydantic's recursive validation of every nested `Achievement` in
`achievements`, and the `validate_dates` model validator. -/
def jobValid (j : Job) : Bool :=
  (matchYYYYMM j.start_date || matchMMslashYYYY j.start_date) &&
  (match j.end_date with
   | none => true
   | some e => matchYYYYMM e || matchMMslashYYYY e || e = "Present") &&
  (match j.achievements with
   | none => true
   | some l => l.all achievementValid) &&
  jobDatesOk j

/-- `PersonalValue`: content at least 10 characters. -/
def personalValueValid (p : PersonalValue) : Bool :=
  10 ≤ p.content.length

/-- `Project`: the timeframe pattern. -/
def projectValid (p : Project) : Bool :=
  matchTimeframe p.timeframe

/-- `ContactInfo`'s validators: `validate_email` requires `'@'` and `'.'`
to occur, `validate_phone` rejects `"555-555"` and `"XXX"` substrings. -/
def contactValid (c : ContactInfo) : Bool :=
  c.email.data.contains '@' && c.email.data.contains '.' &&
  !(strContains c.phone "555-555") && !(strContains c.phone "XXX")

/-- `CareerData(**data)` validates every nested model; the root's own
`validate_data_completeness` can never fire, because a constructed
`ContactInfo` is always truthy. -/
def careerDataValid (d : CareerData) : Bool :=
  contactValid d.contact_info &&
  d.jobs.all jobValid &&
  d.skills.all skillValid &&
  d.projects.all projectValid &&
  d.personal_values.all personalValueValid

/-! ## Storage engine state (`career_data_manager.py`) -/

/-- Content of a file as the engine sees it: either a serialized record
(JSON that parses and maps onto the schema) or bytes on which `json.load`
raises.  Serialization is deterministic and injective, so equality of
`FileContent` values models byte-identity of files. -/
inductive FileContent
  | record (d : CareerData)
  | corrupt (s : String)
deriving DecidableEq

/-- A file on disk: its content plus its modification time. -/
structure FileEntry where
  content : FileContent
  mtime : Nat
deriving DecidableEq

/-- The mutable state of a `CareerDataManager` plus the three files it owns:
the primary record file, the `.json.bak` backup and the `.tmp` temp file.
`clock` is the current time; every write stamps the written file with the
clock and advances it. -/
structure ManagerState where
  primary : Option FileEntry := none
  backup : Option FileEntry := none
  temp : Option FileEntry := none
  cache : Option CareerData := none
  cacheTimestamp : Option Nat := none
  clock : Nat := 1
deriving DecidableEq

/-- Constructor arguments of `CareerDataManager` plus the contact info that
`config.get_contact_info()` (or the hard-coded fallback) supplies to
`_create_empty_career_data`. -/
structure Config where
  filePath : String
  backupEnabled : Bool := true
  cacheEnabled : Bool := true
  defaultContact : ContactInfo
deriving DecidableEq

/-- Real modification times and clock readings are positive; a zero
timestamp never occurs on an actual filesystem.  (The source would treat a
cached timestamp of `0.0` as falsy and drop the cache, so the model keeps
the distinction explicit.) -/
def wfState (st : ManagerState) : Bool :=
  0 < st.clock &&
  (match st.primary with | some p => 0 < p.mtime | none => true) &&
  (match st.cacheTimestamp with | some t => 0 < t | none => true)

/-- Injected I/O faults for `save`: the temp-file write (`json.dump`), the
temp-file re-read (`json.load`), or the final rename (`shutil.move`) raises.
Validation failure is not injected: it is decided by `careerDataValid`. -/
inductive SaveFault
  | noFault
  | failTempWrite
  | failTempRead
  | failRename
deriving DecidableEq

/-- The two error classes raised by the engine, carrying the user-facing
message (`CareerDataValidationError` / `CareerDataFileError`). -/
inductive StoreErr
  | validationErr (userMsg : String)
  | fileErr (userMsg : String)
deriving DecidableEq

/-! ## User-facing messages (exact f-string text from the source) -/

/-- `get_backup_path`: `file_path.with_suffix('.json.bak')`. -/
def get_backup_path (fp : String) : String := withSuffix fp ".json.bak"

/-- The `restore_msg` computed in the failure handlers of `save` when
backups are enabled. -/
def restoreOutcomeMsg (restored : Bool) : String :=
  if restored then "Original data restored from backup."
  else "No backup available to restore."

/-- User message of the `ValidationError` handler in `save`. -/
def saveValidationUserMsg (restoreMsg : String) : String :=
  "Failed to save career data - validation error.\n\n" ++ restoreMsg ++
  "\n\nThe data you tried to save doesn\x27t match the expected format."

/-- User message of the generic exception handler in `save`. -/
def saveFileUserMsg (errStr restoreMsg : String) : String :=
  "Failed to save career data.\n\nError: " ++ errStr ++ "\n\n" ++ restoreMsg

/-- User message of the `json.JSONDecodeError` handler in `load`. -/
def loadJsonUserMsg (fp : String) : String :=
  "Your career data file has invalid formatting.\n\nFile: " ++ fp ++ "\n\n" ++
  "You can:\n1. Restore from backup (career_data.json.bak)\n2. Fix the JSON manually\n3. Start fresh"

/-- User message of the `ValidationError` handler in `load`. -/
def loadValidationUserMsg (fp : String) : String :=
  "Your career data file has validation errors.\n\n" ++
  "The data doesn\x27t match the expected format.\n\n" ++
  "You can restore from backup:\n" ++ get_backup_path fp

/-- User message of the catch-all exception handler in `load`. -/
def loadGenericUserMsg (errStr : String) : String :=
  "Could not load career data.\n\nError: " ++ errStr ++
  "\n\nCheck that the file exists and is readable."

/-! ## Engine operations -/

/-- Step 1 of `save`: `data.last_updated = datetime.now()`. -/
def stampRecord (now : Nat) (d : CareerData) : CareerData :=
  { d with last_updated := now }

/-- `_create_backup`: copy the primary file verbatim (content and, via
`shutil.copy2`, its mtime) to the backup path; a no-op when the primary
file does not exist. -/
def createBackup (st : ManagerState) : ManagerState :=
  match st.primary with
  | none => st
  | some p => { st with backup := some p }

/-- `_restore_from_backup`: copy the backup over the primary file and
invalidate the cache; returns whether a backup existed. -/
def restoreFromBackup (st : ManagerState) : Bool × ManagerState :=
  match st.backup with
  | none => (false, st)
  | some b => (true, { st with primary := some b, cache := none, cacheTimestamp := none })

/-- `_update_cache`: remember the record together with the current on-disk
mtime of the primary file (or the current time when the file is absent). -/
def updateCache (st : ManagerState) (d : CareerData) : ManagerState :=
  match st.primary with
  | some p => { st with cache := some d, cacheTimestamp := some p.mtime }
  | none => { st with cache := some d, cacheTimestamp := some st.clock }

/-- `_is_cache_valid`: a cached record is valid only if a timestamp was
recorded (and, being a Python truthiness test, is nonzero), the file
exists, and its mtime is at most the recorded timestamp. -/
def isCacheValid (st : ManagerState) : Bool :=
  match st.cache, st.cacheTimestamp with
  | some _, some ts =>
    ts ≠ 0 &&
    (match st.primary with
     | none => false
     | some p => decide (p.mtime ≤ ts))
  | _, _ => false

/-- `invalidate_cache`. -/
def invalidateCache (st : ManagerState) : ManagerState :=
  { st with cache := none, cacheTimestamp := none }

/-- The failure handlers at the bottom of `save`: when backups are enabled,
attempt `_restore_from_backup` and report its outcome in the message; then
raise `CareerDataValidationError` or `CareerDataFileError`. -/
def saveFailure (cfg : Config) (st : ManagerState) (isValidationFailure : Bool)
    (errStr : String) : Except StoreErr Bool × ManagerState :=
  if cfg.backupEnabled then
    let r := restoreFromBackup st
    let msg := restoreOutcomeMsg r.1
    (Except.error (if isValidationFailure then StoreErr.validationErr (saveValidationUserMsg msg)
                   else StoreErr.fileErr (saveFileUserMsg errStr msg)), r.2)
  else
    (Except.error (if isValidationFailure then StoreErr.validationErr (saveValidationUserMsg "Backup disabled.")
                   else StoreErr.fileErr (saveFileUserMsg errStr "Backup disabled.")), st)

/-- `CareerDataManager.save`: stamp `last_updated`, back up the existing
primary file, write the serialized record to the temp file, re-read and
re-validate it, atomically rename it over the primary file, and update the
cache.  On any exception the temp file is deleted and the failure handler
runs.  The rename preserves the mtime given to the temp file at write
time. -/
def save (cfg : Config) (st0 : ManagerState) (d : CareerData) (fault : SaveFault) :
    Except StoreErr Bool × ManagerState :=
  let stamped := stampRecord st0.clock d
  let st1 := { st0 with clock := st0.clock + 1 }
  let st2 := if cfg.backupEnabled && st1.primary.isSome then createBackup st1 else st1
  match fault with
  | SaveFault.failTempWrite =>
    -- json.dump raised partway; the partial temp file is unlinked
    let st3 := { st2 with temp := none, clock := st2.clock + 1 }
    saveFailure cfg st3 false "temp write failed"
  | SaveFault.failTempRead =>
    -- the temp file was written, but json.load on it raised; it is unlinked
    let st3 := { st2 with temp := none, clock := st2.clock + 1 }
    saveFailure cfg st3 false "temp read failed"
  | SaveFault.failRename =>
    if careerDataValid stamped then
      let st3 := { st2 with temp := none, clock := st2.clock + 1 }
      saveFailure cfg st3 false "rename failed"
    else
      let st3 := { st2 with temp := none, clock := st2.clock + 1 }
      saveFailure cfg st3 true "validation failed"
  | SaveFault.noFault =>
    if careerDataValid stamped then
      let entry : FileEntry := ⟨FileContent.record stamped, st2.clock⟩
      let st3 := { st2 with primary := some entry, temp := none, clock := st2.clock + 1 }
      let st4 := if cfg.cacheEnabled then updateCache st3 stamped else st3
      (Except.ok true, st4)
    else
      let st3 := { st2 with temp := none, clock := st2.clock + 1 }
      saveFailure cfg st3 true "validation failed"

/-- The contact dictionary handed to `_create_empty_career_data` and the
record it builds (before `save` stamps it). -/
def emptyCareerData (cfg : Config) : CareerData :=
  { version := "1.0", last_updated := 0, contact_info := cfg.defaultContact,
    jobs := [], skills := [], education := [], certifications := [],
    projects := [], personal_values := [], skipped_skills := [] }

/-- The part of `CareerDataManager.load` after the cache check: synthesize
and persist an empty record when the file is absent, otherwise parse,
validate, cache and return it.  The third component records whether the
call read the file from disk. -/
def loadFromDisk (cfg : Config) (st : ManagerState) :
    Except StoreErr CareerData × ManagerState × Bool :=
  match st.primary with
  | none =>
    let empty := emptyCareerData cfg
    let r := save cfg st empty SaveFault.noFault
    (match r.1 with
     | Except.ok _ => (Except.ok (stampRecord st.clock empty), r.2, true)
     | Except.error e => (Except.error e, r.2, true))
  | some entry =>
    match entry.content with
    | FileContent.corrupt _ =>
      (Except.error (StoreErr.fileErr (loadJsonUserMsg cfg.filePath)), st, true)
    | FileContent.record d =>
      if careerDataValid d then
        (Except.ok d, if cfg.cacheEnabled then updateCache st d else st, true)
      else
        (Except.error (StoreErr.validationErr (loadValidationUserMsg cfg.filePath)), st, true)

/-- `CareerDataManager.load`: serve from the cache when it is enabled,
populated and valid; otherwise go to disk. -/
def load (cfg : Config) (st : ManagerState) :
    Except StoreErr CareerData × ManagerState × Bool :=
  match st.cache with
  | some c =>
    if cfg.cacheEnabled && isCacheValid st then (Except.ok c, st, false)
    else loadFromDisk cfg st
  | none => loadFromDisk cfg st

/-! ## Spec-side definitions, used only to compare code behaviour with the
claims' own wording -/

/-- Numeric value of an ASCII digit. -/
def digitVal (c : Char) : Nat := c.toNat - 48

/-- Reads a date in either accepted format as a (year, month) pair.
Follows the claims' wording about the two date formats; the source never
parses dates numerically. -/
def parseYearMonth (s : String) : Option (Nat × Nat) :=
  match s.data with
  | [c0, c1, c2, c3, c4, c5, c6] =>
    if c0.isDigit && c1.isDigit && c2.isDigit && c3.isDigit && c4 = '-' &&
       c5.isDigit && c6.isDigit then
      -- YYYY-MM
      some (((digitVal c0 * 10 + digitVal c1) * 10 + digitVal c2) * 10 + digitVal c3,
            digitVal c5 * 10 + digitVal c6)
    else if c0.isDigit && c1.isDigit && c2 = '/' && c3.isDigit && c4.isDigit &&
            c5.isDigit && c6.isDigit then
      -- MM/YYYY
      some (((digitVal c3 * 10 + digitVal c4) * 10 + digitVal c5) * 10 + digitVal c6,
            digitVal c0 * 10 + digitVal c1)
    else none
  | _ => none

/-- Chronological comparison of two dates as the claim about
`Job.validate_dates` words it ("end_date is chronologically before
start_date (in either YYYY-MM or MM/YYYY format, or a mix of the two)").
This is a spec-side definition: the source compares strings instead. -/
def specChronologicallyBefore (endDate startDate : String) : Bool :=
  match parseYearMonth endDate, parseYearMonth startDate with
  | some (ye, me), some (ys, ms) =>
    decide (ye < ys) || (decide (ye = ys) && decide (me < ms))
  | _, _ => false

/-- The character class `[A-Za-z0-9 .-+#&/]` exactly as the claim about
`Skill.validate_skill_name` writes it, with a literal space where the
source regex has `\s`.  Spec-side definition used to exhibit the
divergence. -/
def specSkillNameCharOk (c : Char) : Bool :=
  c.isAlpha || c.isDigit || c = ' ' ||
  c = '.' || c = '-' || c = '+' || c = '#' || c = '&' || c = '/'

/-! ## Concrete sample data for witnesses and counterexamples -/

/-- A valid contact. -/
def sampleContact : ContactInfo :=
  { name := "A B", email := "a@b.c", phone := "123-456" }

/-- A manager configuration with backups and caching enabled. -/
def sampleConfig : Config :=
  { filePath := "/home/u/career_data.json", defaultContact := sampleContact }

/-- A valid record with no jobs or skills. -/
def sampleRecord : CareerData := { contact_info := sampleContact }

/-- A record that fails validation: its phone number contains the
placeholder `XXX` that `validate_phone` rejects. -/
def invalidRecord : CareerData :=
  { contact_info := { name := "X", email := "x@y.z", phone := "XXX" } }

/-- A second valid record, distinguishable from `sampleRecord`. -/
def modifiedRecord : CareerData :=
  { contact_info := sampleContact, skipped_skills := ["extra"] }

/-- A valid achievement usable as skill evidence. -/
def sampleAchievement : Achievement :=
  { description := "Led a team of five engineers to ship things",
    company := "Acme", timeframe := "2023-01 to Present" }

/-- A concrete, valid skill. -/
def kubernetesSkill : Skill :=
  { name := "Kubernetes", category := "technical",
    examples := [sampleAchievement], last_used := "2024-01" }

/-- A skill named by a denylisted generic term. -/
def teamPlayerSkill : Skill :=
  { name := "Team Player", category := "soft",
    examples := [sampleAchievement], last_used := "2024-01" }

/-- A skill whose name contains a tab character: outside the claimed
character class, but inside the `\s` of the source regex. -/
def tabSkill : Skill :=
  { name := "Go\tSQL", category := "technical",
    examples := [sampleAchievement], last_used := "2024-01" }

/-- A skill whose name contains a character that even the source regex
rejects. -/
def badCharSkill : Skill :=
  { name := "C∞", category := "technical",
    examples := [sampleAchievement], last_used := "2024-01" }

/-- A skill whose name contains U+00A0 (no-break space): whitespace under
Python's Unicode `\s`, hence inside the source character class although it
is neither a plain space nor any other ASCII character. -/
def nbspSkill : Skill :=
  { name := "Go\u00A0SQL", category := "technical",
    examples := [sampleAchievement], last_used := "2024-01" }

/-- A job whose `MM/YYYY` end date is chronologically after its start date
but lexicographically before it once `'/'` is replaced by `'-'`. -/
def buggyJob : Job :=
  { company := "Acme", title := "Engineer",
    start_date := "12/2023", end_date := some "01/2024" }

/-- A job whose end date is chronologically before its start date but
which the string comparison accepts. -/
def backwardsJob : Job :=
  { company := "Acme", title := "Engineer",
    start_date := "01/2023", end_date := some "2022-06" }

/-- A state with no primary file but a stale backup left from an earlier
epoch (the primary file was deleted externally). -/
def staleBackupState : ManagerState :=
  { backup := some ⟨FileContent.record sampleRecord, 1⟩, clock := 3 }

/-- A state whose primary file holds a valid record. -/
def primaryState : ManagerState :=
  { primary := some ⟨FileContent.record sampleRecord, 1⟩, clock := 2 }

/-- A fresh state: no files on disk yet. -/
def freshState : ManagerState := { clock := 1 }

/-! ## General lemmas -/

/-- Stamping `last_updated` does not affect validity: no validator reads
that field. -/
theorem careerDataValid_stampRecord (n : Nat) (d : CareerData) :
    careerDataValid (stampRecord n d) = careerDataValid d := rfl

/-- In a well-formed state the primary file's mtime is positive. -/
theorem wf_primary_mtime (st : ManagerState) (p : FileEntry)
    (hwf : wfState st = true) (hp : st.primary = some p) : 0 < p.mtime := by
  rcases hct : st.cacheTimestamp with _ | ts <;>
    simp [wfState, hp, hct] at hwf <;> tauto

theorem isPrefixOf_append_self (b c : List Char) : b.isPrefixOf (b ++ c) = true := by
  induction b with
  | nil => cases c <;> rfl
  | cons x xs ih => simp [List.isPrefixOf, ih]

theorem containsSubList_self_append (b c : List Char) : containsSubList b (b ++ c) = true := by
  cases b with
  | nil => cases c with
    | nil => rfl
    | cons x r => simp [containsSubList]
  | cons x xs =>
    have h := isPrefixOf_append_self (x :: xs) c
    simp only [List.cons_append] at h
    simp [containsSubList, h]

theorem containsSubList_append_mid (a b c : List Char) :
    containsSubList b (a ++ (b ++ c)) = true := by
  induction a with
  | nil => exact containsSubList_self_append b c
  | cons y ys ih => simp [containsSubList, ih]

/-- A string contains any needle it decomposes around. -/
theorem strContains_data (s needle : String) (l1 l2 : List Char)
    (h : s.data = l1 ++ (needle.data ++ l2)) : strContains s needle = true := by
  simp [strContains, h, containsSubList_append_mid]

/-- After a disk-backed `load` that returns a record (cache enabled), the
cache holds that record with a positive recorded timestamp at least the
primary file's mtime. -/
theorem postLoadFromDisk (cfg : Config) (st : ManagerState) (r : CareerData)
    (hc : cfg.cacheEnabled = true) (hwf : wfState st = true)
    (hok : (loadFromDisk cfg st).1 = Except.ok r) :
    ∃ ts p, (loadFromDisk cfg st).2.1.cache = some r ∧
      (loadFromDisk cfg st).2.1.cacheTimestamp = some ts ∧ ts ≠ 0 ∧
      (loadFromDisk cfg st).2.1.primary = some p ∧ p.mtime ≤ ts := by
  rcases hp : st.primary with _ | entry
  · by_cases hve : careerDataValid (emptyCareerData cfg) = true
    · simp [loadFromDisk, save, updateCache, createBackup,
            careerDataValid_stampRecord, hve, hc, hp] at hok ⊢
      exact hok
    · rcases hbk : st.backup with _ | b <;> by_cases hb : cfg.backupEnabled <;>
        simp [loadFromDisk, save, saveFailure, restoreFromBackup, createBackup,
              careerDataValid_stampRecord, hve, hb, hp, hbk] at hok
  · rcases hcontent : entry.content with d | s
    · by_cases hvd : careerDataValid d = true
      · have hmt : 0 < entry.mtime := wf_primary_mtime st entry hwf hp
        simp [loadFromDisk, updateCache, hvd, hc, hp, hcontent] at hok ⊢
        exact ⟨hok, by omega⟩
      · simp [loadFromDisk, hvd, hc, hp, hcontent] at hok
    · simp [loadFromDisk, hp, hcontent] at hok

/-- After any `load` that returns a record (cache enabled, well-formed
state), the resulting state satisfies the cache-validity conditions for
that record. -/
theorem postLoad (cfg : Config) (st : ManagerState) (r : CareerData)
    (hc : cfg.cacheEnabled = true) (hwf : wfState st = true)
    (hok : (load cfg st).1 = Except.ok r) :
    ∃ ts p, (load cfg st).2.1.cache = some r ∧
      (load cfg st).2.1.cacheTimestamp = some ts ∧ ts ≠ 0 ∧
      (load cfg st).2.1.primary = some p ∧ p.mtime ≤ ts := by
  rcases hcc : st.cache with _ | c
  · have heq : load cfg st = loadFromDisk cfg st := by simp [load, hcc]
    rw [heq] at hok ⊢
    exact postLoadFromDisk cfg st r hc hwf hok
  · by_cases hv : isCacheValid st = true
    · rcases hct : st.cacheTimestamp with _ | ts
      · simp [isCacheValid, hcc, hct] at hv
      · rcases hp : st.primary with _ | p
        · simp [isCacheValid, hcc, hct, hp] at hv
        · simp [isCacheValid, hcc, hct, hp] at hv
          have hload : load cfg st = (Except.ok c, st, false) := by
            simp [load, isCacheValid, hc, hcc, hct, hp, hv.1, hv.2]
          rw [hload] at hok ⊢
          simp only [Except.ok.injEq] at hok
          subst hok
          exact ⟨ts, p, hcc, hct, hv.1, hp, hv.2⟩
    · have heq : load cfg st = loadFromDisk cfg st := by simp [load, hcc, hv]
      rw [heq] at hok ⊢
      exact postLoadFromDisk cfg st r hc hwf hok

/-- `load` on a state meeting the cache-validity conditions returns the
cached record, leaves the state unchanged and does not read the disk. -/
theorem loadCacheHit (cfg : Config) (st : ManagerState) (r : CareerData) (ts : Nat)
    (p : FileEntry) (hc : cfg.cacheEnabled = true) (h1 : st.cache = some r)
    (h2 : st.cacheTimestamp = some ts) (h3 : ts ≠ 0) (h4 : st.primary = some p)
    (h5 : p.mtime ≤ ts) :
    load cfg st = (Except.ok r, st, false) := by
  simp [load, isCacheValid, hc, h1, h2, h3, h4, h5]

/-- A second `load` directly after a successful one serves the same record
from the cache without reading the disk. -/
theorem loadAgainServesCache (cfg : Config) (st : ManagerState) (r : CareerData)
    (hc : cfg.cacheEnabled = true) (hwf : wfState st = true)
    (hok : (load cfg st).1 = Except.ok r) :
    load cfg (load cfg st).2.1 = (Except.ok r, (load cfg st).2.1, false) := by
  obtain ⟨ts, p, h1, h2, h3, h4, h5⟩ := postLoad cfg st r hc hwf hok
  exact loadCacheHit cfg (load cfg st).2.1 r ts p hc h1 h2 h3 h4 h5

/-- After an external write with an mtime newer than any recorded cache
timestamp, `load` goes to disk and returns the new content. -/
theorem loadAfterExternalWrite (cfg : Config) (st : ManagerState) (d2 : CareerData)
    (m : Nat) (hval : careerDataValid d2 = true)
    (hts : ∀ ts, st.cacheTimestamp = some ts → ts < m) :
    (load cfg { st with primary := some ⟨FileContent.record d2, m⟩ }).1 = Except.ok d2 ∧
    (load cfg { st with primary := some ⟨FileContent.record d2, m⟩ }).2.2 = true := by
  rcases hcc : st.cache with _ | c
  · constructor <;> simp [load, loadFromDisk, updateCache, hval, hcc]
  · rcases hct : st.cacheTimestamp with _ | ts
    · constructor <;>
        simp [load, loadFromDisk, isCacheValid, updateCache, hval, hcc, hct]
    · have hlt := hts ts hct
      have hnle : ¬ (m ≤ ts) := Nat.not_le.mpr hlt
      constructor <;>
        simp [load, loadFromDisk, isCacheValid, updateCache, hval, hcc, hct, hnle]

/-! ## Claim theorems -/

/-- Claim C1, amended: when the temp-file write, the temp-file re-read or
the validation of the temp file raises during `save`, the call raises, the
temporary file is removed, and — provided the primary file existed when
the call began — the primary file is byte-identical (content and mtime) to
what it was before.  (Without the proviso the claim fails: see the
counterexample, where a failed save materializes a stale backup at a
previously nonexistent primary path.) -/
theorem save_tempfile_failure_preserves_primary
    (cfg : Config) (st : ManagerState) (d : CareerData) (fault : SaveFault)
    (hf : fault = SaveFault.failTempWrite ∨ fault = SaveFault.failTempRead ∨
          careerDataValid d = false) :
    (∃ e, (save cfg st d fault).1 = Except.error e) ∧
    (save cfg st d fault).2.temp = none ∧
    ∀ p, st.primary = some p → (save cfg st d fault).2.primary = some p := by
  rcases hf with hf | hf | hf <;>
    first
    | (subst hf
       by_cases hb : cfg.backupEnabled <;> rcases hp : st.primary with _ | p <;>
         rcases hbk : st.backup with _ | bk <;>
         simp [save, saveFailure, restoreFromBackup, createBackup, hb, hp, hbk])
    | (cases fault <;>
       by_cases hb : cfg.backupEnabled <;> rcases hp : st.primary with _ | p <;>
         rcases hbk : st.backup with _ | bk <;>
         simp [save, saveFailure, restoreFromBackup, createBackup,
               careerDataValid_stampRecord, hb, hp, hbk, hf])

/-- Claim C1, witness: a concrete faulted save on a state with an existing
primary file raises, removes the temp file and leaves the primary file
untouched. -/
theorem save_tempfile_failure_preserves_primary_witness :
    (save sampleConfig primaryState sampleRecord SaveFault.failTempWrite).2.temp = none ∧
    (save sampleConfig primaryState sampleRecord SaveFault.failTempWrite).2.primary =
      some ⟨FileContent.record sampleRecord, 1⟩ :=
  ⟨(save_tempfile_failure_preserves_primary sampleConfig primaryState sampleRecord
      SaveFault.failTempWrite (Or.inl rfl)).2.1,
   (save_tempfile_failure_preserves_primary sampleConfig primaryState sampleRecord
      SaveFault.failTempWrite (Or.inl rfl)).2.2
      ⟨FileContent.record sampleRecord, 1⟩ rfl⟩

/-- Claim C1, counterexample: with no primary file but a stale backup on
disk, a save whose temp-file write raises ends with the primary file
EXISTING (holding the stale backup content), so the primary path is not
byte-identical to its prior (absent) state. -/
theorem save_failure_materializes_stale_backup :
    staleBackupState.primary = none ∧
    staleBackupState.backup = some ⟨FileContent.record sampleRecord, 1⟩ ∧
    (save sampleConfig staleBackupState sampleRecord SaveFault.failTempWrite).1 =
      Except.error (StoreErr.fileErr (saveFileUserMsg "temp write failed" (restoreOutcomeMsg true))) ∧
    (save sampleConfig staleBackupState sampleRecord SaveFault.failTempWrite).2.primary =
      some ⟨FileContent.record sampleRecord, 1⟩ := by decide

/-- Claim C2: after a successful save of `R1` followed by a failed save of
invalid `R2` (backups enabled), the failed attempt raises a validation
error and both the primary file and the backup file hold exactly the
content committed by the first save — never content from the failed
attempt. -/
theorem backup_holds_last_good_after_failed_save
    (cfg : Config) (st : ManagerState) (R1 R2 : CareerData)
    (hb : cfg.backupEnabled = true)
    (h1 : careerDataValid R1 = true) (h2 : careerDataValid R2 = false) :
    (save cfg st R1 SaveFault.noFault).1 = Except.ok true ∧
    (save cfg (save cfg st R1 SaveFault.noFault).2 R2 SaveFault.noFault).1 =
      Except.error (StoreErr.validationErr (saveValidationUserMsg (restoreOutcomeMsg true))) ∧
    (save cfg (save cfg st R1 SaveFault.noFault).2 R2 SaveFault.noFault).2.primary =
      some ⟨FileContent.record (stampRecord st.clock R1), st.clock + 1⟩ ∧
    (save cfg (save cfg st R1 SaveFault.noFault).2 R2 SaveFault.noFault).2.backup =
      some ⟨FileContent.record (stampRecord st.clock R1), st.clock + 1⟩ := by
  by_cases hc : cfg.cacheEnabled <;> rcases hp : st.primary with _ | p <;>
    simp [save, saveFailure, restoreFromBackup, createBackup, updateCache,
          careerDataValid_stampRecord, h1, h2, hb, hc, hp]

/-- Claim C2, witness: the concrete two-save scenario on a fresh state. -/
theorem backup_holds_last_good_after_failed_save_witness :
    (save sampleConfig freshState sampleRecord SaveFault.noFault).1 = Except.ok true ∧
    (save sampleConfig (save sampleConfig freshState sampleRecord SaveFault.noFault).2
        invalidRecord SaveFault.noFault).1 =
      Except.error (StoreErr.validationErr (saveValidationUserMsg (restoreOutcomeMsg true))) ∧
    (save sampleConfig (save sampleConfig freshState sampleRecord SaveFault.noFault).2
        invalidRecord SaveFault.noFault).2.primary =
      some ⟨FileContent.record (stampRecord freshState.clock sampleRecord), freshState.clock + 1⟩ ∧
    (save sampleConfig (save sampleConfig freshState sampleRecord SaveFault.noFault).2
        invalidRecord SaveFault.noFault).2.backup =
      some ⟨FileContent.record (stampRecord freshState.clock sampleRecord), freshState.clock + 1⟩ :=
  backup_holds_last_good_after_failed_save sampleConfig freshState sampleRecord
    invalidRecord rfl (by decide) (by decide)

/-- Claim C3: for every valid record, `save` succeeds and the following
`load` returns a record whose fields all equal the saved record's, except
`last_updated`, which carries the engine-stamped time. -/
theorem save_then_load_roundtrip
    (cfg : Config) (st : ManagerState) (d : CareerData)
    (hv : careerDataValid d = true) :
    ∃ r, (save cfg st d SaveFault.noFault).1 = Except.ok true ∧
      (load cfg (save cfg st d SaveFault.noFault).2).1 = Except.ok r ∧
      r.version = d.version ∧ r.contact_info = d.contact_info ∧
      r.jobs = d.jobs ∧ r.skills = d.skills ∧ r.education = d.education ∧
      r.certifications = d.certifications ∧ r.projects = d.projects ∧
      r.personal_values = d.personal_values ∧ r.skipped_skills = d.skipped_skills ∧
      r.last_updated = st.clock := by
  refine ⟨stampRecord st.clock d, ?_, ?_, rfl, rfl, rfl, rfl, rfl, rfl, rfl, rfl, rfl, rfl⟩ <;>
    by_cases hc : cfg.cacheEnabled <;> by_cases hb : cfg.backupEnabled <;>
    rcases hp : st.primary with _ | p <;> rcases hcc : st.cache with _ | c <;>
    simp [save, load, loadFromDisk, isCacheValid, updateCache, createBackup,
          careerDataValid_stampRecord, hv, hc, hb, hp, hcc]

/-- Claim C3, witness: the round-trip at a concrete record and state. -/
theorem save_then_load_roundtrip_witness :
    ∃ r, (save sampleConfig freshState sampleRecord SaveFault.noFault).1 = Except.ok true ∧
      (load sampleConfig (save sampleConfig freshState sampleRecord SaveFault.noFault).2).1 =
        Except.ok r ∧
      r.version = sampleRecord.version ∧ r.contact_info = sampleRecord.contact_info ∧
      r.jobs = sampleRecord.jobs ∧ r.skills = sampleRecord.skills ∧
      r.education = sampleRecord.education ∧
      r.certifications = sampleRecord.certifications ∧
      r.projects = sampleRecord.projects ∧
      r.personal_values = sampleRecord.personal_values ∧
      r.skipped_skills = sampleRecord.skipped_skills ∧
      r.last_updated = freshState.clock :=
  save_then_load_roundtrip sampleConfig freshState sampleRecord (by decide)

/-- Claim C4: the code compares date strings lexicographically after
replacing `'/'` by `'-'`, which matches chronological order only when both
dates are in `YYYY-MM` form.  At the failing input
`start_date = "12/2023", end_date = "01/2024"` the end date is
chronologically AFTER the start date, yet validation rejects the job; and
`backwardsJob` (end chronologically before start) is accepted.  The two
`YYYY-MM` cases from the spec behave as claimed. -/
theorem job_date_validation_diverges_from_chronology :
    jobValid buggyJob = false ∧
    specChronologicallyBefore "01/2024" "12/2023" = false ∧
    matchMMslashYYYY "12/2023" = true ∧ matchMMslashYYYY "01/2024" = true ∧
    jobValid backwardsJob = true ∧
    specChronologicallyBefore "2022-06" "01/2023" = true ∧
    jobValid { company := "Acme", title := "Engineer",
               start_date := "2023-06", end_date := some "2022-01" } = false ∧
    jobValid { company := "Acme", title := "Engineer",
               start_date := "2023-06", end_date := some "Present" } = true := by decide

/-- Claim C5: with caching enabled and a well-formed state, (i) a second
`load` directly after a load that returned a record serves the identical
record from the cache without a disk read; (ii) after an external write
whose mtime exceeds any recorded cache timestamp, `load` reads the disk
and returns the new on-disk content. -/
theorem load_cache_coherence :
    (∀ (cfg : Config) (st : ManagerState) (r : CareerData),
      cfg.cacheEnabled = true → wfState st = true →
      (load cfg st).1 = Except.ok r →
      load cfg (load cfg st).2.1 = (Except.ok r, (load cfg st).2.1, false)) ∧
    (∀ (cfg : Config) (st : ManagerState) (d2 : CareerData) (m : Nat),
      careerDataValid d2 = true →
      (∀ ts, st.cacheTimestamp = some ts → ts < m) →
      (load cfg { st with primary := some ⟨FileContent.record d2, m⟩ }).1 =
        Except.ok d2 ∧
      (load cfg { st with primary := some ⟨FileContent.record d2, m⟩ }).2.2 = true) :=
  ⟨loadAgainServesCache, loadAfterExternalWrite⟩

/-- Claim C5, witness: the two cache-coherence behaviours at concrete
states. -/
theorem load_cache_coherence_witness :
    load sampleConfig (load sampleConfig primaryState).2.1 =
      (Except.ok sampleRecord, (load sampleConfig primaryState).2.1, false) ∧
    (load sampleConfig
        { primaryState with primary := some ⟨FileContent.record modifiedRecord, 9⟩ }).1 =
      Except.ok modifiedRecord :=
  ⟨load_cache_coherence.1 sampleConfig primaryState sampleRecord rfl (by decide) (by decide),
   (load_cache_coherence.2 sampleConfig primaryState modifiedRecord 9 (by decide)
      (fun ts h => nomatch h)).1⟩

/-- Claim C6: `load` on a state with no primary file returns (without
raising) a record with empty jobs and skills and the configured contact
info, persists it to the primary file, and a second `load` afterwards
returns that same persisted record. -/
theorem first_run_load_synthesizes_empty_record
    (cfg : Config) (st : ManagerState) (hp : st.primary = none)
    (hcv : contactValid cfg.defaultContact = true) :
    (load cfg st).1 = Except.ok (stampRecord st.clock (emptyCareerData cfg)) ∧
    (stampRecord st.clock (emptyCareerData cfg)).jobs = [] ∧
    (stampRecord st.clock (emptyCareerData cfg)).skills = [] ∧
    (stampRecord st.clock (emptyCareerData cfg)).contact_info = cfg.defaultContact ∧
    (load cfg st).2.1.primary =
      some ⟨FileContent.record (stampRecord st.clock (emptyCareerData cfg)), st.clock + 1⟩ ∧
    (load cfg (load cfg st).2.1).1 =
      Except.ok (stampRecord st.clock (emptyCareerData cfg)) := by
  have hve : careerDataValid (emptyCareerData cfg) = true := by
    simp [careerDataValid, emptyCareerData, hcv]
  by_cases hc : cfg.cacheEnabled <;> rcases hcc : st.cache with _ | c <;>
    rcases hct : st.cacheTimestamp with _ | ts <;>
    simp [load, loadFromDisk, save, updateCache, createBackup, isCacheValid,
          careerDataValid_stampRecord, hve, hc, hp, hcc, hct] <;>
    simp [stampRecord, emptyCareerData]

/-- Claim C6, witness: the first-run path at a concrete fresh state. -/
theorem first_run_load_synthesizes_empty_record_witness :
    (load sampleConfig freshState).1 =
      Except.ok (stampRecord freshState.clock (emptyCareerData sampleConfig)) ∧
    (load sampleConfig freshState).2.1.primary =
      some ⟨FileContent.record (stampRecord freshState.clock (emptyCareerData sampleConfig)),
            freshState.clock + 1⟩ ∧
    (load sampleConfig (load sampleConfig freshState).2.1).1 =
      Except.ok (stampRecord freshState.clock (emptyCareerData sampleConfig)) :=
  ⟨(first_run_load_synthesizes_empty_record sampleConfig freshState rfl (by decide)).1,
   (first_run_load_synthesizes_empty_record sampleConfig freshState rfl (by decide)).2.2.2.2.1,
   (first_run_load_synthesizes_empty_record sampleConfig freshState rfl (by decide)).2.2.2.2.2⟩

/-- Claim C7, amended: the load-time schema-validation error message
includes the exact backup file path; the load-time invalid-JSON message
lists the three next steps verbatim (naming the default backup file name,
not the exact path); the load-time catch-all and both save-time messages
state the underlying error or the backup-restoration outcome, but no
save-time message includes the backup file path. -/
theorem error_messages_include_guidance :
    (∀ fp, strContains (loadValidationUserMsg fp) (get_backup_path fp) = true) ∧
    (∀ fp, strContains (loadJsonUserMsg fp)
      "You can:\n1. Restore from backup (career_data.json.bak)\n2. Fix the JSON manually\n3. Start fresh" = true) ∧
    (∀ e, strContains (loadGenericUserMsg e) e = true) ∧
    (∀ b, strContains (saveValidationUserMsg (restoreOutcomeMsg b)) (restoreOutcomeMsg b) = true) ∧
    (∀ e b, strContains (saveFileUserMsg e (restoreOutcomeMsg b)) (restoreOutcomeMsg b) = true) := by
  refine ⟨fun fp => ?_, fun fp => ?_, fun e => ?_, fun b => ?_, fun e b => ?_⟩
  · exact strContains_data _ _
      ("Your career data file has validation errors.\n\n" ++
       "The data doesn\x27t match the expected format.\n\n" ++
       "You can restore from backup:\n").data []
      (by simp [loadValidationUserMsg, get_backup_path, String.data_append])
  · exact strContains_data _ _
      ("Your career data file has invalid formatting.\n\nFile: " ++ fp ++ "\n\n").data []
      (by simp [loadJsonUserMsg, String.data_append])
  · exact strContains_data _ _ "Could not load career data.\n\nError: ".data
      "\n\nCheck that the file exists and is readable.".data
      (by simp [loadGenericUserMsg, String.data_append])
  · exact strContains_data _ _ "Failed to save career data - validation error.\n\n".data
      "\n\nThe data you tried to save doesn\x27t match the expected format.".data
      (by simp [saveValidationUserMsg, String.data_append])
  · exact strContains_data _ _
      ("Failed to save career data.\n\nError: " ++ e ++ "\n\n").data []
      (by simp [saveFileUserMsg, String.data_append])

/-- Claim C7, counterexample: a failed save on a state whose primary file
exists (so a backup exists at the moment the error is raised) raises an
error whose user-facing message does NOT contain the exact backup file
path. -/
theorem save_error_message_lacks_backup_path :
    (save sampleConfig primaryState invalidRecord SaveFault.noFault).1 =
      Except.error (StoreErr.validationErr (saveValidationUserMsg (restoreOutcomeMsg true))) ∧
    (save sampleConfig primaryState invalidRecord SaveFault.noFault).2.backup =
      some ⟨FileContent.record sampleRecord, 1⟩ ∧
    strContains (saveValidationUserMsg (restoreOutcomeMsg true))
      (get_backup_path sampleConfig.filePath) = false := by decide

/-- Claim C8: `save` overwrites `last_updated` with the engine clock and
changes no other field of the record (so any caller-supplied timestamp is
ignored: saving a record with a different `last_updated` is the same call),
and on success the persisted primary file holds exactly the engine-stamped
record. -/
theorem save_stamps_last_updated_only :
    (∀ (now : Nat) (d : CareerData),
      (stampRecord now d).last_updated = now ∧
      (stampRecord now d).version = d.version ∧
      (stampRecord now d).contact_info = d.contact_info ∧
      (stampRecord now d).jobs = d.jobs ∧
      (stampRecord now d).skills = d.skills ∧
      (stampRecord now d).education = d.education ∧
      (stampRecord now d).certifications = d.certifications ∧
      (stampRecord now d).projects = d.projects ∧
      (stampRecord now d).personal_values = d.personal_values ∧
      (stampRecord now d).skipped_skills = d.skipped_skills) ∧
    (∀ (cfg : Config) (st : ManagerState) (d : CareerData) (t : Nat) (fault : SaveFault),
      save cfg st { d with last_updated := t } fault = save cfg st d fault) ∧
    (∀ (cfg : Config) (st : ManagerState) (d : CareerData),
      careerDataValid d = true →
      (save cfg st d SaveFault.noFault).2.primary =
        some ⟨FileContent.record (stampRecord st.clock d), st.clock + 1⟩) := by
  refine ⟨fun now d => ⟨rfl, rfl, rfl, rfl, rfl, rfl, rfl, rfl, rfl, rfl⟩,
          fun cfg st d t fault => rfl, fun cfg st d hv => ?_⟩
  by_cases hc : cfg.cacheEnabled <;> by_cases hb : cfg.backupEnabled <;>
    rcases hp : st.primary with _ | p <;>
    simp [save, updateCache, createBackup, careerDataValid_stampRecord, hv, hc, hb, hp]

/-- Claim C8, witness: the persisted file after a concrete successful save
holds the engine-stamped record. -/
theorem save_stamps_last_updated_only_witness :
    (save sampleConfig freshState sampleRecord SaveFault.noFault).2.primary =
      some ⟨FileContent.record (stampRecord freshState.clock sampleRecord),
            freshState.clock + 1⟩ :=
  save_stamps_last_updated_only.2.2 sampleConfig freshState sampleRecord (by decide)

/-- Claim C9: a skill with an empty examples list fails validation no
matter what the other fields are, while a concrete skill with one valid
achievement as evidence passes. -/
theorem skill_requires_nonempty_examples :
    (∀ (nm cat : String) (prof : Option String) (lu : String),
      skillValid { name := nm, category := cat, proficiency := prof,
                   examples := [], last_used := lu } = false) ∧
    skillValid kubernetesSkill = true ∧
    kubernetesSkill.examples = [sampleAchievement] ∧
    achievementValid sampleAchievement = true := by
  refine ⟨fun nm cat prof lu => ?_, by decide, by decide, by decide⟩
  simp [skillValid]

/-- Claim C10, amended: a skill whose name case-insensitively equals a
denylisted generic term fails validation, as does a name containing a
character outside the class `[A-Za-z0-9\s.\-+#&/]` — note `\s`: the source
regex admits any Unicode whitespace character, not only the space the
claim lists — while the concrete name `Kubernetes` passes.  The final
conjunct exhibits the widened class positively: a name containing U+00A0
(no-break space), whitespace under Python's `\s` though not a space,
passes validation. -/
theorem skill_name_denylist_and_charset :
    (∀ s : Skill, bannedGeneric.contains (lowerStr s.name) = true →
      skillValid s = false) ∧
    (∀ (s : Skill) (c : Char), c ∈ s.name.data → skillNameCharOk c = false →
      skillValid s = false) ∧
    skillValid kubernetesSkill = true ∧
    (skillValid nbspSkill = true ∧ (Char.ofNat 0xA0) ∈ nbspSkill.name.data ∧
      pyIsSpace (Char.ofNat 0xA0) = true ∧ specSkillNameCharOk (Char.ofNat 0xA0) = false) := by
  refine ⟨fun s h => ?_, fun s c hc h => ?_, by decide, by decide⟩
  · have hmem : lowerStr s.name ∈ bannedGeneric := by simpa using h
    simp [skillValid, hmem]
  · have hall : s.name.data.all skillNameCharOk = false := by
      cases hall : s.name.data.all skillNameCharOk with
      | false => rfl
      | true =>
        have := List.all_eq_true.mp hall c hc
        simp [h] at this
    simp [skillValid, skillNameCharsOk, hall]

/-- Claim C10, witness: the denylisted name `Team Player` and a name with a
character outside even the source character class both fail. -/
theorem skill_name_denylist_and_charset_witness :
    skillValid teamPlayerSkill = false ∧ skillValid badCharSkill = false :=
  ⟨skill_name_denylist_and_charset.1 teamPlayerSkill (by decide),
   skill_name_denylist_and_charset.2.1 badCharSkill '∞' (by decide) (by decide)⟩

/-- Claim C10, counterexample: a skill name containing a tab — a character
outside the class `[A-Za-z0-9 .-+#&/]` stated by the claim — nevertheless
passes validation, because the source regex uses `\s`. -/
theorem skill_name_with_tab_passes_validation :
    skillValid tabSkill = true ∧ ('\t' ∈ tabSkill.name.data) ∧
    specSkillNameCharOk '\t' = false := by decide

end ResumeTailor
